import Mathlib

/-!
Verification of the indicator engine and signal classifier of
`src/demo_1.py` (class `AShareQuantStrategy`).

The Python source stores a pandas DataFrame in `self.data`;
`calculate_indicators` attaches indicator columns computed by the external
TA-Lib functions (`talib.SMA`, `talib.RSI`, `talib.MACD`, `talib.BBANDS`,
`talib.STOCH`), and `show_data_summary` reads the last row and prints a
trend / RSI-zone read.  The numerical indicator algorithms live in the
TA-Lib dependency, not in this repository's source, so they are modelled
here from the specification; the glue logic (the `self.data is None`
guard, the column assignments, `J = 3*k - 2*d`, and the chained
comparisons of `show_data_summary`) is embedded directly from the source.

Prices are modelled as rationals; an indicator cell is `Option ℚ`, with
`none` standing for the float NaN of the warm-up region.
-/

namespace Quant

/-- An indicator column cell: `col[i]`, `none` when `i` is out of range
(matching NaN / missing in the source). -/
def cell (col : List (Option ℚ)) (i : ℕ) : Option ℚ :=
  (col[i]?).getD none

/-- Modelled from the spec (the SMA algorithm lives in `talib.SMA`, not in
`src/`): simple moving average of period `p`; for index `i ≥ p-1` the value
is the arithmetic mean of the trailing window `closes[i-p+1 .. i]`,
undefined before that. -/
def SMAcol (closes : List ℚ) (p : ℕ) : List (Option ℚ) :=
  (List.range closes.length).map (fun i =>
    if p - 1 ≤ i then some (((closes.drop (i + 1 - p)).take p).sum / p) else none)

theorem cell_mk (f : ℕ → Option ℚ) (n i : ℕ) (h : i < n) :
    cell ((List.range n).map f) i = f i := by
  simp [cell, List.getElem?_map, List.getElem?_range h]

/-- C1: for `p ∈ {5,10,20,60}` and `i ≥ p-1` the SMA cell is the mean of the
exact `p`-element trailing window `closes[i-p+1 .. i]`; for `i < p-1` it is
undefined. -/
theorem sma_trailing_window_mean (closes : List ℚ) (p i : ℕ)
    (hp : p = 5 ∨ p = 10 ∨ p = 20 ∨ p = 60) (hi : i < closes.length) :
    (p - 1 ≤ i →
      ∃ w : List ℚ, w.length = p ∧
        (∀ j, j < p → w[j]? = closes[i + 1 - p + j]?) ∧
        cell (SMAcol closes p) i = some (w.sum / p)) ∧
    (i < p - 1 → cell (SMAcol closes p) i = none) := by
  have hp1 : 1 ≤ p := by rcases hp with h | h | h | h <;> omega
  constructor
  · intro hpi
    refine ⟨(closes.drop (i + 1 - p)).take p, ?_, ?_, ?_⟩
    · rw [List.length_take, List.length_drop]
      omega
    · intro j hj
      rw [List.getElem?_take_of_lt hj, List.getElem?_drop]
    · rw [SMAcol, cell_mk _ _ _ hi, if_pos hpi]
  · intro hpi
    rw [SMAcol, cell_mk _ _ _ hi, if_neg (by omega)]

/-- Witness for C1 at `closes = [1,2,3,4,5,6]`, `p = 5`, `i = 5`: the window
is `[2,3,4,5,6]` and the cell is its mean `4`. -/
theorem sma_trailing_window_mean_witness :
    cell (SMAcol [1, 2, 3, 4, 5, 6] 5) 5 = some 4 := by
  have h := (sma_trailing_window_mean [1, 2, 3, 4, 5, 6] 5 5 (Or.inl rfl)
    (by decide)).1 (by decide)
  obtain ⟨w, hlen, hget, hcell⟩ := h
  have hw : w = [2, 3, 4, 5, 6] := by
    have h0 := hget 0 (by decide)
    have h1 := hget 1 (by decide)
    have h2 := hget 2 (by decide)
    have h3 := hget 3 (by decide)
    have h4 := hget 4 (by decide)
    match w, hlen with
    | [a, b, c, d, e], _ =>
      simp only [List.getElem?_cons_zero, List.getElem?_cons_succ] at h0 h1 h2 h3 h4
      simp_all
  rw [hcell, hw]
  norm_num

/-- Modelled from the spec (the RSI algorithm lives in `talib.RSI`, not in
`src/`): per-bar gain `max(close[i] - close[i-1], 0)`. -/
def gain (closes : List ℚ) (i : ℕ) : ℚ :=
  max (closes.getD i 0 - closes.getD (i - 1) 0) 0

/-- Modelled from the spec: per-bar loss `max(close[i-1] - close[i], 0)`. -/
def loss (closes : List ℚ) (i : ℕ) : ℚ :=
  max (closes.getD (i - 1) 0 - closes.getD i 0) 0

/-- Modelled from the spec: Wilder smoothing for period 14 applied to a
per-bar stream `f`.  `wilderAvg f k` is the average at series index
`14 + k`: the seed (`k = 0`) is the simple mean of `f 1 .. f 14`, and each
further step is `(prev * 13 + f i) / 14`. -/
def wilderAvg (f : ℕ → ℚ) : ℕ → ℚ
  | 0 => (((List.range 14).map (fun j => f (j + 1))).sum) / 14
  | k + 1 => (wilderAvg f k * 13 + f (14 + (k + 1))) / 14

/-- Wilder-smoothed average gain at series index `i ≥ 14`. -/
def avgGain (closes : List ℚ) (i : ℕ) : ℚ :=
  wilderAvg (gain closes) (i - 14)

/-- Wilder-smoothed average loss at series index `i ≥ 14`. -/
def avgLoss (closes : List ℚ) (i : ℕ) : ℚ :=
  wilderAvg (loss closes) (i - 14)

/-- Modelled from the spec: the RSI value at a defined index:
100 when the average loss is 0, otherwise `100 - 100/(1 + avgGain/avgLoss)`. -/
def rsiAt (closes : List ℚ) (i : ℕ) : ℚ :=
  if avgLoss closes i = 0 then 100
  else 100 - 100 / (1 + avgGain closes i / avgLoss closes i)

/-- Modelled from the spec: the RSI(14) column; undefined for `i < 14`. -/
def RSIcol (closes : List ℚ) : List (Option ℚ) :=
  (List.range closes.length).map (fun i =>
    if 14 ≤ i then some (rsiAt closes i) else none)

theorem wilderAvg_nonneg (f : ℕ → ℚ) (hf : ∀ j, 0 ≤ f j) (k : ℕ) :
    0 ≤ wilderAvg f k := by
  induction k with
  | zero =>
    rw [wilderAvg]
    apply div_nonneg _ (by norm_num)
    apply List.sum_nonneg
    intro x hx
    simp only [List.mem_map] at hx
    obtain ⟨j, _, rfl⟩ := hx
    exact hf _
  | succ k ih =>
    rw [wilderAvg]
    apply div_nonneg _ (by norm_num)
    have := hf (14 + (k + 1))
    nlinarith

theorem gain_nonneg (closes : List ℚ) (i : ℕ) : 0 ≤ gain closes i :=
  le_max_right _ _

theorem loss_nonneg (closes : List ℚ) (i : ℕ) : 0 ≤ loss closes i :=
  le_max_right _ _

/-- C2: every defined RSI(14) cell lies in [0,100] and equals 100 exactly
when the Wilder-smoothed average loss is 0; cells before index 14 are
undefined. -/
theorem rsi_range_and_loss_zero (closes : List ℚ) (i : ℕ) (hi : i < closes.length) :
    (i < 14 → cell (RSIcol closes) i = none) ∧
    (14 ≤ i → cell (RSIcol closes) i = some (rsiAt closes i) ∧
      0 ≤ rsiAt closes i ∧ rsiAt closes i ≤ 100 ∧
      (rsiAt closes i = 100 ↔ avgLoss closes i = 0)) := by
  constructor
  · intro h14
    rw [RSIcol, cell_mk _ _ _ hi, if_neg (by omega)]
  · intro h14
    refine ⟨by rw [RSIcol, cell_mk _ _ _ hi, if_pos h14], ?_, ?_, ?_⟩
    · rw [rsiAt]
      split
      · norm_num
      · rename_i hL
        have hL0 : 0 ≤ avgLoss closes i := wilderAvg_nonneg _ (loss_nonneg closes) _
        have hLpos : 0 < avgLoss closes i := lt_of_le_of_ne hL0 (Ne.symm hL)
        have hG : 0 ≤ avgGain closes i := wilderAvg_nonneg _ (gain_nonneg closes) _
        have hq : 0 ≤ avgGain closes i / avgLoss closes i := div_nonneg hG hL0
        have h1 : (1 : ℚ) ≤ 1 + avgGain closes i / avgLoss closes i := by linarith
        have : 100 / (1 + avgGain closes i / avgLoss closes i) ≤ 100 := by
          rw [div_le_iff₀ (by linarith)]
          nlinarith
        linarith
    · rw [rsiAt]
      split
      · norm_num
      · rename_i hL
        have hL0 : 0 ≤ avgLoss closes i := wilderAvg_nonneg _ (loss_nonneg closes) _
        have hLpos : 0 < avgLoss closes i := lt_of_le_of_ne hL0 (Ne.symm hL)
        have hG : 0 ≤ avgGain closes i := wilderAvg_nonneg _ (gain_nonneg closes) _
        have hq : 0 ≤ avgGain closes i / avgLoss closes i := div_nonneg hG hL0
        have : 0 < 100 / (1 + avgGain closes i / avgLoss closes i) := by
          apply div_pos (by norm_num)
          linarith
        linarith
    · constructor
      · intro h100
        by_contra hL
        rw [rsiAt, if_neg hL] at h100
        have hL0 : 0 ≤ avgLoss closes i := wilderAvg_nonneg _ (loss_nonneg closes) _
        have hLpos : 0 < avgLoss closes i := lt_of_le_of_ne hL0 (Ne.symm hL)
        have hG : 0 ≤ avgGain closes i := wilderAvg_nonneg _ (gain_nonneg closes) _
        have hq : 0 ≤ avgGain closes i / avgLoss closes i := div_nonneg hG hL0
        have : 0 < 100 / (1 + avgGain closes i / avgLoss closes i) := by
          apply div_pos (by norm_num)
          linarith
        linarith
      · intro hL
        rw [rsiAt, if_pos hL]

/-- Witness for C2 on 15 strictly rising closes: index 14 is defined, equals
100 (all losses are 0), and index 13 is undefined. -/
theorem rsi_range_and_loss_zero_witness :
    cell (RSIcol [1, 2, 3, 4, 5, 6, 7, 8, 9, 10, 11, 12, 13, 14, 15]) 13 = none ∧
    cell (RSIcol [1, 2, 3, 4, 5, 6, 7, 8, 9, 10, 11, 12, 13, 14, 15]) 14 = some 100 := by
  have h13 := (rsi_range_and_loss_zero
    [1, 2, 3, 4, 5, 6, 7, 8, 9, 10, 11, 12, 13, 14, 15] 13 (by decide)).1 (by decide)
  have h14 := (rsi_range_and_loss_zero
    [1, 2, 3, 4, 5, 6, 7, 8, 9, 10, 11, 12, 13, 14, 15] 14 (by decide)).2 (by decide)
  refine ⟨h13, ?_⟩
  rw [h14.1]
  have hL : avgLoss [1, 2, 3, 4, 5, 6, 7, 8, 9, 10, 11, 12, 13, 14, 15] 14 = 0 := by
    simp [avgLoss, wilderAvg, loss, List.range_succ]
    norm_num
  rw [rsiAt, if_pos hL]

/-- Modelled from the spec (the MACD algorithm lives in `talib.MACD`, not in
`src/`): the EMA recursion with smoothing factor `2/(p+1)`, indexed relative
to its seed.  `emaAux xs p k` is the EMA at series index `(p-1) + k`: the
seed (`k = 0`) is the simple mean of the first `p` values, and each step is
`α·x[i] + (1-α)·prev`. -/
def emaAux (xs : List ℚ) (p : ℕ) : ℕ → ℚ
  | 0 => ((xs.take p).sum) / p
  | k + 1 => (2 / ((p : ℚ) + 1)) * xs.getD (p + k) 0
      + (1 - 2 / ((p : ℚ) + 1)) * emaAux xs p k

/-- EMA value at absolute series index `i ≥ p-1`. -/
def emaVal (xs : List ℚ) (p i : ℕ) : ℚ :=
  emaAux xs p (i - (p - 1))

/-- Modelled from the spec: the EMA column of period `p`, undefined before
index `p-1`. -/
def EMAcol (xs : List ℚ) (p : ℕ) : List (Option ℚ) :=
  (List.range xs.length).map (fun i =>
    if p - 1 ≤ i then some (emaVal xs p i) else none)

/-- MACD line value: fast EMA(12) minus slow EMA(26). -/
def macdAt (closes : List ℚ) (i : ℕ) : ℚ :=
  emaVal closes 12 i - emaVal closes 26 i

/-- Modelled from the spec: the MACD line column, defined from index
`slow - 1 = 25` on. -/
def MACDcol (closes : List ℚ) : List (Option ℚ) :=
  (List.range closes.length).map (fun i =>
    if 25 ≤ i then some (macdAt closes i) else none)

/-- The sequence of defined MACD values (entry `k` is the MACD line at
series index `25 + k`). -/
def macdVals (closes : List ℚ) : List ℚ :=
  (List.range (closes.length - 25)).map (fun k => macdAt closes (25 + k))

/-- Modelled from the spec: the MACD signal column, an EMA of period 9 over
the defined MACD values, hence defined from series index `25 + 8 = 33` on.
Entry `i` of the series is entry `i - 25` of `macdVals`. -/
def signalCol (closes : List ℚ) : List (Option ℚ) :=
  (List.range closes.length).map (fun i =>
    if 33 ≤ i then some (emaVal (macdVals closes) 9 (i - 25)) else none)

/-- Elementwise subtraction of two option cells (NaN-propagating, as the
float subtraction in the source). -/
def optSub : Option ℚ → Option ℚ → Option ℚ
  | some a, some b => some (a - b)
  | _, _ => none

/-- Modelled from the spec: MACD histogram = MACD − signal, elementwise. -/
def histCol (closes : List ℚ) : List (Option ℚ) :=
  (List.range closes.length).map (fun i =>
    optSub (cell (MACDcol closes) i) (cell (signalCol closes) i))

/-- C3: the 12/26 EMAs are undefined before index `p-1`, seeded at `p-1`
with the simple mean of the first `p` closes, and follow
`EMA[i] = α·close[i] + (1-α)·EMA[i-1]` with `α = 2/(p+1)` afterwards; the
MACD line is defined at every index `≥ 25` as fast − slow; the signal line
is seeded at index 33 with the simple mean of the first 9 defined MACD
values and follows the period-9 EMA recursion afterwards. -/
theorem macd_ema_recursion (closes : List ℚ) (p i : ℕ)
    (hp : p = 12 ∨ p = 26) (hi : i < closes.length) :
    (i < p - 1 → cell (EMAcol closes p) i = none) ∧
    (i = p - 1 → cell (EMAcol closes p) i = some ((closes.take p).sum / p)) ∧
    (p ≤ i → cell (EMAcol closes p) i =
      some ((2 / ((p : ℚ) + 1)) * closes.getD i 0
        + (1 - 2 / ((p : ℚ) + 1)) * emaVal closes p (i - 1))) ∧
    (25 ≤ i → cell (MACDcol closes) i =
      some (emaVal closes 12 i - emaVal closes 26 i)) ∧
    (i = 33 → cell (signalCol closes) i =
      some (((macdVals closes).take 9).sum / 9)) ∧
    (34 ≤ i → cell (signalCol closes) i =
      some ((2 / (10 : ℚ)) * (macdVals closes).getD (i - 25) 0
        + (1 - 2 / (10 : ℚ)) * emaVal (macdVals closes) 9 (i - 1 - 25))) := by
  have hp1 : 1 ≤ p := by rcases hp with h | h <;> omega
  refine ⟨?_, ?_, ?_, ?_, ?_, ?_⟩
  · intro h
    rw [EMAcol, cell_mk _ _ _ hi, if_neg (by omega)]
  · intro h
    rw [EMAcol, cell_mk _ _ _ hi, if_pos (by omega)]
    have : i - (p - 1) = 0 := by omega
    rw [emaVal, this, emaAux]
  · intro h
    rw [EMAcol, cell_mk _ _ _ hi, if_pos (by omega)]
    have h1 : i - (p - 1) = (i - p) + 1 := by omega
    have h2 : p + (i - p) = i := by omega
    have h3 : i - 1 - (p - 1) = i - p := by omega
    rw [emaVal, h1, emaAux, h2, emaVal, h3]
  · intro h
    rw [MACDcol, cell_mk _ _ _ hi, if_pos h, macdAt]
  · intro h
    rw [signalCol, cell_mk _ _ _ hi, if_pos (by omega)]
    have : i - 25 - (9 - 1) = 0 := by omega
    rw [emaVal, this, emaAux]
    norm_num
  · intro h
    rw [signalCol, cell_mk _ _ _ hi, if_pos (by omega)]
    have h1 : i - 25 - (9 - 1) = (i - 25 - 9) + 1 := by omega
    have h2 : 9 + (i - 25 - 9) = i - 25 := by omega
    have h3 : i - 1 - 25 - (9 - 1) = i - 25 - 9 := by omega
    rw [emaVal, h1, emaAux, h2, emaVal, h3]
    norm_num

/-- Witness for C3 on a 35-bar constant series: at index 33 the signal cell
is the seed mean, at index 34 it follows the EMA step, and at index 11 the
fast EMA is the mean of the first 12 closes. -/
theorem macd_ema_recursion_witness :
    cell (EMAcol (List.replicate 35 (1 : ℚ)) 12) 11 =
      some (((List.replicate 35 (1 : ℚ)).take 12).sum / 12) ∧
    cell (signalCol (List.replicate 35 (1 : ℚ))) 33 =
      some (((macdVals (List.replicate 35 (1 : ℚ))).take 9).sum / 9) ∧
    cell (MACDcol (List.replicate 35 (1 : ℚ))) 34 =
      some (emaVal (List.replicate 35 (1 : ℚ)) 12 34
        - emaVal (List.replicate 35 (1 : ℚ)) 26 34) := by
  refine ⟨?_, ?_, ?_⟩
  · exact ((macd_ema_recursion (List.replicate 35 (1 : ℚ)) 12 11 (Or.inl rfl)
      (by simp)).2.1 (by decide))
  · exact ((macd_ema_recursion (List.replicate 35 (1 : ℚ)) 26 33 (Or.inr rfl)
      (by simp)).2.2.2.2.1 (by decide))
  · exact ((macd_ema_recursion (List.replicate 35 (1 : ℚ)) 26 34 (Or.inr rfl)
      (by simp)).2.2.2.1 (by decide))

/-- The trailing 9-bar window `xs[i-8 .. i]` (meaningful for `8 ≤ i`). -/
def win9 (xs : List ℚ) (i : ℕ) : List ℚ :=
  (xs.drop (i - 8)).take 9

/-- Maximum of the trailing 9-bar window of `highs`; the fold is seeded with
the window's last element `highs[i]`, so for `8 ≤ i < length` it is the
maximum of `highs[i-8 .. i]`. -/
def hh9 (highs : List ℚ) (i : ℕ) : ℚ :=
  (win9 highs i).foldr max (highs.getD i 0)

/-- Minimum of the trailing 9-bar window of `lows`, seeded likewise. -/
def ll9 (lows : List ℚ) (i : ℕ) : ℚ :=
  (win9 lows i).foldr min (lows.getD i 0)

/-- Modelled from the spec (the Stochastic algorithm lives in `talib.STOCH`,
not in `src/`): the raw %K value
`100·(close[i] − min(low[i-8..i])) / (max(high[i-8..i]) − min(low[i-8..i]))`,
with the documented zero-denominator policy: when the range is 0 the value
is 0 rather than a division by zero. -/
def rawK (highs lows closes : List ℚ) (i : ℕ) : ℚ :=
  if hh9 highs i - ll9 lows i = 0 then 0
  else 100 * (closes.getD i 0 - ll9 lows i) / (hh9 highs i - ll9 lows i)

/-- Modelled from the spec: the raw %K column, defined from index 8 on. -/
def rawKcol (highs lows closes : List ℚ) : List (Option ℚ) :=
  (List.range closes.length).map (fun i =>
    if 8 ≤ i then some (rawK highs lows closes i) else none)

/-- Slow %K value: 3-bar SMA of raw %K (meaningful for `10 ≤ i`). -/
def kAt (highs lows closes : List ℚ) (i : ℕ) : ℚ :=
  (rawK highs lows closes (i - 2) + rawK highs lows closes (i - 1)
    + rawK highs lows closes i) / 3

/-- Modelled from the spec: the K column, defined from index 10 on. -/
def Kcol (highs lows closes : List ℚ) : List (Option ℚ) :=
  (List.range closes.length).map (fun i =>
    if 10 ≤ i then some (kAt highs lows closes i) else none)

/-- The %D value: 3-bar SMA of %K (meaningful for `12 ≤ i`). -/
def dAt (highs lows closes : List ℚ) (i : ℕ) : ℚ :=
  (kAt highs lows closes (i - 2) + kAt highs lows closes (i - 1)
    + kAt highs lows closes i) / 3

/-- Modelled from the spec: the D column, defined from index 12 on. -/
def Dcol (highs lows closes : List ℚ) : List (Option ℚ) :=
  (List.range closes.length).map (fun i =>
    if 12 ≤ i then some (dAt highs lows closes i) else none)

/-- Elementwise `3·k − 2·d` on option cells, NaN-propagating: defined only
where both K and D are defined.  This is the embedding of the source line
`self.data['J'] = 3 * k - 2 * d`. -/
def optJ : Option ℚ → Option ℚ → Option ℚ
  | some k, some d => some (3 * k - 2 * d)
  | _, _ => none

/-- The J column of the source: elementwise `3*k - 2*d` over the K and D
columns. -/
def Jcol (highs lows closes : List ℚ) : List (Option ℚ) :=
  (List.range closes.length).map (fun i =>
    optJ (cell (Kcol highs lows closes) i) (cell (Dcol highs lows closes) i))

/-- C7: whenever the trailing 9-bar high/low range is 0 (and the index is in
the defined region `8 ≤ i < length`), the raw %K cell is the defined value
`some 0` — a substituted zero, not an undefined cell. -/
theorem rawK_zero_range_policy (highs lows closes : List ℚ) (i : ℕ)
    (hi : i < closes.length) (h8 : 8 ≤ i)
    (hrange : hh9 highs i - ll9 lows i = 0) :
    cell (rawKcol highs lows closes) i = some 0 := by
  rw [rawKcol, cell_mk _ _ _ hi, if_pos h8, rawK, if_pos hrange]

/-- Witness for C7 on 9 constant bars (high = low = close = 5): the range at
index 8 is 0 and the raw %K cell there is `some 0`. -/
theorem rawK_zero_range_policy_witness :
    cell (rawKcol (List.replicate 9 (5 : ℚ)) (List.replicate 9 (5 : ℚ))
      (List.replicate 9 (5 : ℚ))) 8 = some 0 := by
  apply rawK_zero_range_policy _ _ _ 8 (by simp) (by decide)
  have hh : hh9 (List.replicate 9 (5 : ℚ)) 8 = 5 := by
    simp [hh9, win9, List.replicate]
  have hl : ll9 (List.replicate 9 (5 : ℚ)) 8 = 5 := by
    simp [ll9, win9, List.replicate]
  rw [hh, hl]
  norm_num

/-- A 13-bar example: constant highs 100. -/
def kdjH : List ℚ := List.replicate 13 100

/-- A 13-bar example: constant lows 0. -/
def kdjL : List ℚ := List.replicate 13 0

/-- A 13-bar example: closes jump from 0 to 100 on the last three bars. -/
def kdjC : List ℚ := [0, 0, 0, 0, 0, 0, 0, 0, 0, 0, 100, 100, 100]

theorem Jcol_cell_eq (highs lows closes : List ℚ) (i : ℕ)
    (hi : i < closes.length) (h12 : 12 ≤ i) :
    cell (Jcol highs lows closes) i =
      some (3 * kAt highs lows closes i - 2 * dAt highs lows closes i) := by
  rw [Jcol, cell_mk _ _ _ hi, Kcol, cell_mk _ _ _ hi, Dcol, cell_mk _ _ _ hi,
    if_pos (show 10 ≤ i by omega), if_pos h12, optJ]

theorem Jcol_cell_none (highs lows closes : List ℚ) (i : ℕ)
    (hi : i < closes.length) (h12 : i < 12) :
    cell (Jcol highs lows closes) i = none := by
  rw [Jcol, cell_mk _ _ _ hi, Dcol, cell_mk _ _ _ hi, if_neg (by omega)]
  rcases cell (Kcol highs lows closes) i with _ | k <;> rfl

/-- C8: wherever both K and D are defined (index ≥ 12) the J cell equals
exactly `3·K − 2·D`; before that it is undefined; and J is not clamped to
[0,100]: on the example series the J value at index 12 is `500/3 > 100`. -/
theorem j_equals_3k_minus_2d (highs lows closes : List ℚ) (i : ℕ) :
    (i < closes.length → 12 ≤ i →
      cell (Jcol highs lows closes) i =
        some (3 * kAt highs lows closes i - 2 * dAt highs lows closes i)) ∧
    (i < closes.length → i < 12 → cell (Jcol highs lows closes) i = none) ∧
    (cell (Jcol kdjH kdjL kdjC) 12 = some (500 / 3) ∧ (100 : ℚ) < 500 / 3) := by
  refine ⟨fun hi h12 => Jcol_cell_eq highs lows closes i hi h12,
    fun hi h12 => Jcol_cell_none highs lows closes i hi h12, ?_, by norm_num⟩
  have hk : kAt kdjH kdjL kdjC 12 = 100 := by
    norm_num [kAt, rawK, hh9, ll9, win9, kdjH, kdjL, kdjC, List.replicate]
  have hd : dAt kdjH kdjL kdjC 12 = 200 / 3 := by
    norm_num [dAt, kAt, rawK, hh9, ll9, win9, kdjH, kdjL, kdjC, List.replicate]
  rw [Jcol_cell_eq kdjH kdjL kdjC 12 (by decide) (by decide), hk, hd]
  norm_num

/-- Witness for C8: the general `J = 3K − 2D` part instantiated on the
example series at index 12 (the closed conjuncts are restated alongside). -/
theorem j_equals_3k_minus_2d_witness :
    cell (Jcol kdjH kdjL kdjC) 12 =
      some (3 * kAt kdjH kdjL kdjC 12 - 2 * dAt kdjH kdjL kdjC 12) ∧
    cell (Jcol kdjH kdjL kdjC) 11 = none := by
  refine ⟨(j_equals_3k_minus_2d kdjH kdjL kdjC 12).1 (by decide) (by decide),
    (j_equals_3k_minus_2d kdjH kdjL kdjC 11).2.1 (by decide) (by decide)⟩

/-- Population variance of the trailing 20-bar window at index `i`. -/
def bbVarAt (closes : List ℚ) (i : ℕ) : ℚ :=
  ((((closes.drop (i + 1 - 20)).take 20)).map
    (fun x => (x - ((closes.drop (i + 1 - 20)).take 20).sum / 20) ^ 2)).sum / 20

/-- Modelled from the spec (the algorithm lives in `talib.BBANDS`, not in
`src/`): the Bollinger bands are `middle ± 2·σ` with `middle = SMA(20)` and
`σ = √(population variance)`.  The square root of a rational is irrational
in general, so the bands are embedded through their defining data: the
middle column is `SMAcol closes 20` and this column carries the variance
whose square root scales the offset.  No claim concerns the band values. -/
def BBvarCol (closes : List ℚ) : List (Option ℚ) :=
  (List.range closes.length).map (fun i =>
    if 19 ≤ i then some (bbVarAt closes i) else none)

/-- Modelled from the spec: the error taxonomy of the indicator engine
(`InsufficientDataError`); no such class exists in `src/`, whose indicator
calls are delegated to TA-Lib. -/
inductive EngineError
  | insufficientDataError
  deriving DecidableEq

/-- Modelled from the spec: SMA with the error policy — fails when the
series is shorter than the period, otherwise returns the (possibly
partially undefined) column. -/
def smaChecked (closes : List ℚ) (p : ℕ) : Except EngineError (List (Option ℚ)) :=
  if closes.length < p then Except.error EngineError.insufficientDataError
  else Except.ok (SMAcol closes p)

/-- Modelled from the spec: RSI(14) with the error policy; the first defined
cell is at index 14, so the minimum window is 15 bars. -/
def rsiChecked (closes : List ℚ) : Except EngineError (List (Option ℚ)) :=
  if closes.length < 15 then Except.error EngineError.insufficientDataError
  else Except.ok (RSIcol closes)

/-- Modelled from the spec: MACD with the error policy — fewer than 26 bars
(the slow-EMA seed) fails; from 26 bars on the engine emits partial columns
even though the signal line only becomes defined at index 33. -/
def macdChecked (closes : List ℚ) :
    Except EngineError (List (Option ℚ) × List (Option ℚ) × List (Option ℚ)) :=
  if closes.length < 26 then Except.error EngineError.insufficientDataError
  else Except.ok (MACDcol closes, signalCol closes, histCol closes)

/-- Modelled from the spec: Bollinger Bands(20, 2) with the error policy;
the bands are first defined at index 19, so the minimum window is 20 bars.
On success it returns the middle band (SMA(20)) and the variance column that
determines the upper/lower offsets. -/
def bbandsChecked (closes : List ℚ) :
    Except EngineError (List (Option ℚ) × List (Option ℚ)) :=
  if closes.length < 20 then Except.error EngineError.insufficientDataError
  else Except.ok (SMAcol closes 20, BBvarCol closes)

/-- Modelled from the spec: Stochastic KDJ with the error policy; D is first
defined at index 12, so the minimum window is 13 bars. -/
def stochChecked (highs lows closes : List ℚ) :
    Except EngineError (List (Option ℚ) × List (Option ℚ)) :=
  if closes.length < 13 then Except.error EngineError.insufficientDataError
  else Except.ok (Kcol highs lows closes, Dcol highs lows closes)

/-- C5: every indicator function fails with `InsufficientDataError` exactly
when the series is shorter than its minimum window (26 bars for MACD,
p for SMA(p), 15 for RSI(14), 20 for the Bollinger Bands, 13 for the
Stochastic KDJ), and on a sufficient series it returns columns normally —
indices short of a full trailing window merely hold undefined cells (signal
before index 33, SMA before index p-1, Bollinger before index 19). -/
theorem insufficient_data_policy (highs lows closes : List ℚ) :
    (closes.length < 26 →
      macdChecked closes = Except.error EngineError.insufficientDataError) ∧
    (26 ≤ closes.length →
      macdChecked closes = Except.ok (MACDcol closes, signalCol closes, histCol closes) ∧
      ∀ i, i < closes.length → i < 33 → cell (signalCol closes) i = none) ∧
    (∀ p, closes.length < p →
      smaChecked closes p = Except.error EngineError.insufficientDataError) ∧
    (∀ p, p ≤ closes.length → smaChecked closes p = Except.ok (SMAcol closes p) ∧
      ∀ i, i < closes.length → i < p - 1 → cell (SMAcol closes p) i = none) ∧
    (closes.length < 15 →
      rsiChecked closes = Except.error EngineError.insufficientDataError) ∧
    (15 ≤ closes.length → rsiChecked closes = Except.ok (RSIcol closes)) ∧
    (closes.length < 20 →
      bbandsChecked closes = Except.error EngineError.insufficientDataError) ∧
    (20 ≤ closes.length →
      bbandsChecked closes = Except.ok (SMAcol closes 20, BBvarCol closes) ∧
      ∀ i, i < closes.length → i < 19 → cell (BBvarCol closes) i = none) ∧
    (closes.length < 13 →
      stochChecked highs lows closes = Except.error EngineError.insufficientDataError) ∧
    (13 ≤ closes.length → stochChecked highs lows closes =
      Except.ok (Kcol highs lows closes, Dcol highs lows closes)) := by
  refine ⟨?_, ?_, ?_, ?_, ?_, ?_, ?_, ?_, ?_, ?_⟩
  · intro h
    rw [macdChecked, if_pos h]
  · intro h
    refine ⟨by rw [macdChecked, if_neg (by omega)], ?_⟩
    intro i hi h33
    rw [signalCol, cell_mk _ _ _ hi, if_neg (by omega)]
  · intro p h
    rw [smaChecked, if_pos h]
  · intro p h
    refine ⟨by rw [smaChecked, if_neg (by omega)], ?_⟩
    intro i hi hip
    rw [SMAcol, cell_mk _ _ _ hi, if_neg (by omega)]
  · intro h
    rw [rsiChecked, if_pos h]
  · intro h
    rw [rsiChecked, if_neg (by omega)]
  · intro h
    rw [bbandsChecked, if_pos h]
  · intro h
    refine ⟨by rw [bbandsChecked, if_neg (by omega)], ?_⟩
    intro i hi h19
    rw [BBvarCol, cell_mk _ _ _ hi, if_neg (by omega)]
  · intro h
    rw [stochChecked, if_pos h]
  · intro h
    rw [stochChecked, if_neg (by omega)]

/-- Witness for C5: a 20-bar series makes MACD fail with
`InsufficientDataError` while the Bollinger Bands succeed on it with the
variance cell at index 18 still undefined; a 19-bar series makes the
Bollinger Bands fail; and a 30-bar series makes MACD succeed with the signal
cell at index 29 still undefined. -/
theorem insufficient_data_policy_witness :
    macdChecked (List.replicate 20 (0 : ℚ)) =
      Except.error EngineError.insufficientDataError ∧
    macdChecked (List.replicate 30 (0 : ℚ)) =
      Except.ok (MACDcol (List.replicate 30 (0 : ℚ)),
        signalCol (List.replicate 30 (0 : ℚ)), histCol (List.replicate 30 (0 : ℚ))) ∧
    cell (signalCol (List.replicate 30 (0 : ℚ))) 29 = none ∧
    bbandsChecked (List.replicate 19 (0 : ℚ)) =
      Except.error EngineError.insufficientDataError ∧
    bbandsChecked (List.replicate 20 (0 : ℚ)) =
      Except.ok (SMAcol (List.replicate 20 (0 : ℚ)) 20,
        BBvarCol (List.replicate 20 (0 : ℚ))) ∧
    cell (BBvarCol (List.replicate 20 (0 : ℚ))) 18 = none := by
  have h20 := (insufficient_data_policy [] [] (List.replicate 20 (0 : ℚ))).1 (by simp)
  have h30 := ((insufficient_data_policy [] [] (List.replicate 30 (0 : ℚ))).2.1 (by simp))
  have hb19 :=
    ((insufficient_data_policy [] [] (List.replicate 19 (0 : ℚ))).2.2.2.2.2.2.1 (by simp))
  have hb20 :=
    ((insufficient_data_policy [] [] (List.replicate 20 (0 : ℚ))).2.2.2.2.2.2.2.1 (by simp))
  exact ⟨h20, h30.1, h30.2 29 (by simp) (by omega), hb19, hb20.1,
    hb20.2 18 (by simp) (by omega)⟩

/-- The DataFrame held in `self.data`: the raw columns produced by
`fetch_data` (always fully defined) and the indicator columns attached by
`calculate_indicators` (option cells; empty before the call). -/
structure Frame where
  openCol : List ℚ
  highCol : List ℚ
  lowCol : List ℚ
  closeCol : List ℚ
  volumeCol : List ℚ
  amountCol : List ℚ
  changePctCol : List ℚ
  MA5 : List (Option ℚ)
  MA10 : List (Option ℚ)
  MA20 : List (Option ℚ)
  MA60 : List (Option ℚ)
  RSI : List (Option ℚ)
  MACD : List (Option ℚ)
  MACD_Signal : List (Option ℚ)
  MACD_Hist : List (Option ℚ)
  BB_Middle : List (Option ℚ)
  BB_Var : List (Option ℚ)
  K : List (Option ℚ)
  D : List (Option ℚ)
  J : List (Option ℚ)

/-- Embedding of `AShareQuantStrategy.calculate_indicators`: when
`self.data is None` the method prints and returns, leaving the state
untouched; otherwise it attaches every indicator column computed from the
raw columns, modifying nothing else. -/
def calculate_indicators (data : Option Frame) : Option Frame :=
  match data with
  | none => none
  | some df =>
    some { df with
      MA5 := SMAcol df.closeCol 5
      MA10 := SMAcol df.closeCol 10
      MA20 := SMAcol df.closeCol 20
      MA60 := SMAcol df.closeCol 60
      RSI := RSIcol df.closeCol
      MACD := MACDcol df.closeCol
      MACD_Signal := signalCol df.closeCol
      MACD_Hist := histCol df.closeCol
      BB_Middle := SMAcol df.closeCol 20
      BB_Var := BBvarCol df.closeCol
      K := Kcol df.highCol df.lowCol df.closeCol
      D := Dcol df.highCol df.lowCol df.closeCol
      J := Jcol df.highCol df.lowCol df.closeCol }

/-- Trend read printed by `show_data_summary`. -/
inductive Trend
  | up
  | down
  | mixed
  deriving DecidableEq

/-- RSI-zone read printed by `show_data_summary`. -/
inductive Zone
  | overbought
  | oversold
  | normal
  deriving DecidableEq

/-- Comparison `a > b` on cells with float-NaN semantics: any comparison
against an undefined cell is false, as in the Python source. -/
def optGT : Option ℚ → Option ℚ → Bool
  | some a, some b => decide (b < a)
  | _, _ => false

/-- Comparison `a < b` on cells with float-NaN semantics. -/
def optLT : Option ℚ → Option ℚ → Bool
  | some a, some b => decide (a < b)
  | _, _ => false

/-- Embedding of the chained comparisons of `show_data_summary`:
`Close > MA5 > MA20` yields the up-trend print, `Close < MA5 < MA20` the
down-trend print, anything else the mixed print. -/
def trendOf (c ma5 ma20 : Option ℚ) : Trend :=
  if optGT c ma5 && optGT ma5 ma20 then Trend.up
  else if optLT c ma5 && optLT ma5 ma20 then Trend.down
  else Trend.mixed

/-- Embedding of the RSI-zone branches of `show_data_summary`:
`RSI > 70` overbought, `RSI < 30` oversold, otherwise normal. -/
def zoneOf (rsi : Option ℚ) : Zone :=
  if optGT rsi (some 70) then Zone.overbought
  else if optLT rsi (some 30) then Zone.oversold
  else Zone.normal

/-- Embedding of `AShareQuantStrategy.show_data_summary`: returns nothing
when `self.data is None`, otherwise the trend and RSI-zone reads of the
latest row (`iloc[-1]`).  The raw close is always defined; the indicator
cells may be NaN, in which case every comparison on them is false. -/
def show_data_summary (data : Option Frame) : Option (Trend × Zone) :=
  match data with
  | none => none
  | some df =>
    some (trendOf (some (df.closeCol.getD (df.closeCol.length - 1) 0))
            (cell df.MA5 (df.closeCol.length - 1))
            (cell df.MA20 (df.closeCol.length - 1)),
          zoneOf (cell df.RSI (df.closeCol.length - 1)))

theorem optGT_some_some (a b : ℚ) : optGT (some a) (some b) = true ↔ b < a := by
  simp [optGT]

theorem optLT_some_some (a b : ℚ) : optLT (some a) (some b) = true ↔ a < b := by
  simp [optLT]

theorem optGT_none_right (a : Option ℚ) : optGT a none = false := by
  cases a <;> rfl

theorem optLT_none_right (a : Option ℚ) : optLT a none = false := by
  cases a <;> rfl

theorem optGT_none_left (a : Option ℚ) : optGT none a = false := by
  cases a <;> rfl

theorem optLT_none_left (a : Option ℚ) : optLT none a = false := by
  cases a <;> rfl

/-- C4: with close, MA5 and MA20 all defined, the latest-row trend read is
up exactly when `close > MA5 > MA20`, down exactly when
`close < MA5 < MA20`, and mixed otherwise; the chains are strict, so any
equality among the three values yields mixed. -/
theorem trend_strict_chains (c m5 m20 : ℚ) :
    (trendOf (some c) (some m5) (some m20) = Trend.up ↔ m5 < c ∧ m20 < m5) ∧
    (trendOf (some c) (some m5) (some m20) = Trend.down ↔ c < m5 ∧ m5 < m20) ∧
    (¬(m5 < c ∧ m20 < m5) → ¬(c < m5 ∧ m5 < m20) →
      trendOf (some c) (some m5) (some m20) = Trend.mixed) ∧
    (c = m5 ∨ m5 = m20 → trendOf (some c) (some m5) (some m20) = Trend.mixed) := by
  rw [trendOf]
  split_ifs with h1 h2
  · rw [Bool.and_eq_true, optGT_some_some, optGT_some_some] at h1
    refine ⟨by simp [h1], ?_, ?_, ?_⟩
    · constructor
      · intro h
        cases h
      · intro h
        exact absurd h1.1 (lt_asymm h.1)
    · intro hup _
      exact absurd h1 hup
    · intro h
      rcases h with h | h
      · exact absurd h1.1 (by rw [h]; exact lt_irrefl m5)
      · exact absurd h1.2 (by rw [h]; exact lt_irrefl m20)
  · rw [Bool.and_eq_true, optLT_some_some, optLT_some_some] at h2
    rw [Bool.and_eq_true, optGT_some_some, optGT_some_some] at h1
    refine ⟨?_, by simp [h2], ?_, ?_⟩
    · constructor
      · intro h
        cases h
      · intro h
        exact absurd h h1
    · intro _ hdown
      exact absurd h2 hdown
    · intro h
      rcases h with h | h
      · exact absurd h2.1 (by rw [h]; exact lt_irrefl m5)
      · exact absurd h2.2 (by rw [h]; exact lt_irrefl m20)
  · rw [Bool.and_eq_true, optGT_some_some, optGT_some_some] at h1
    rw [Bool.and_eq_true, optLT_some_some, optLT_some_some] at h2
    refine ⟨?_, ?_, fun _ _ => rfl, fun _ => rfl⟩
    · constructor
      · intro h
        cases h
      · intro h
        exact absurd h h1
    · constructor
      · intro h
        cases h
      · intro h
        exact absurd h h2

/-- Witness for C4: at close 2, MA5 1, MA20 0 the trend is up; at close 1,
MA5 1, MA20 0 (an equality in the chain) the trend is mixed. -/
theorem trend_strict_chains_witness :
    trendOf (some 2) (some 1) (some 0) = Trend.up ∧
    trendOf (some 1) (some 1) (some 0) = Trend.mixed :=
  ⟨(trend_strict_chains 2 1 0).1.mpr (by norm_num),
   (trend_strict_chains 1 1 0).2.2.2 (Or.inl rfl)⟩

/-- A concrete 3-bar frame as produced by `fetch_data` (indicator columns
not yet attached) — shorter than every indicator warm-up window. -/
def shortFrame : Frame :=
  { openCol := [1, 2, 3], highCol := [2, 3, 4], lowCol := [1, 1, 2],
    closeCol := [2, 3, 3], volumeCol := [10, 10, 10],
    amountCol := [20, 30, 30], changePctCol := [0, 1, 0],
    MA5 := [], MA10 := [], MA20 := [], MA60 := [], RSI := [], MACD := [],
    MACD_Signal := [], MACD_Hist := [], BB_Middle := [], BB_Var := [],
    K := [], D := [], J := [] }

/-- Counterexample to C6: on a 3-bar series every indicator cell of the
latest row is undefined, yet `show_data_summary` raises no error — it
returns the ordinary classification (mixed trend, normal zone). -/
theorem classifier_short_series_no_error :
    show_data_summary (calculate_indicators (some shortFrame)) =
      some (Trend.mixed, Zone.normal) := rfl

/-- C6 (amended): the classifier operates on the single latest row, but when
a required indicator cell there is undefined, no error is raised: the
NaN-comparison semantics make every chain false, so an undefined MA5 or MA20
yields the mixed trend and an undefined RSI yields the normal zone. -/
theorem classifier_undefined_cells_defaults (df : Frame) :
    (cell df.MA5 (df.closeCol.length - 1) = none ∨
        cell df.MA20 (df.closeCol.length - 1) = none →
      ∃ z, show_data_summary (some df) = some (Trend.mixed, z)) ∧
    (cell df.RSI (df.closeCol.length - 1) = none →
      ∃ t, show_data_summary (some df) = some (t, Zone.normal)) := by
  constructor
  · intro h
    refine ⟨zoneOf (cell df.RSI (df.closeCol.length - 1)), ?_⟩
    rw [show_data_summary]
    rcases h with h | h
    · rw [h, trendOf, optGT_none_right, optLT_none_right]
      simp
    · rw [h, trendOf, optGT_none_right, optLT_none_right]
      simp
  · intro h
    refine ⟨trendOf (some (df.closeCol.getD (df.closeCol.length - 1) 0))
      (cell df.MA5 (df.closeCol.length - 1))
      (cell df.MA20 (df.closeCol.length - 1)), ?_⟩
    rw [show_data_summary, h, zoneOf, optGT_none_left, optLT_none_left]
    simp

/-- Witness for the amended C6 at the concrete 3-bar frame: the undefined
cells of the latest row give the mixed-trend and normal-zone reads. -/
theorem classifier_undefined_cells_defaults_witness :
    (∃ z, show_data_summary (some shortFrame) = some (Trend.mixed, z)) ∧
    (∃ t, show_data_summary (some shortFrame) = some (t, Zone.normal)) :=
  ⟨(classifier_undefined_cells_defaults shortFrame).1 (Or.inl rfl),
   (classifier_undefined_cells_defaults shortFrame).2 rfl⟩

/-- C9: `calculate_indicators` only attaches indicator columns — every raw
column (open, high, low, close, volume, amount, change pct) of the resulting
frame is the one held before the call. -/
theorem calculate_indicators_preserves_raw (df : Frame) :
    ∃ df2, calculate_indicators (some df) = some df2 ∧
      df2.openCol = df.openCol ∧ df2.highCol = df.highCol ∧
      df2.lowCol = df.lowCol ∧ df2.closeCol = df.closeCol ∧
      df2.volumeCol = df.volumeCol ∧ df2.amountCol = df.amountCol ∧
      df2.changePctCol = df.changePctCol :=
  ⟨_, rfl, rfl, rfl, rfl, rfl, rfl, rfl, rfl⟩

/-- C10: invoked with no loaded series (`self.data is None`),
`calculate_indicators` returns leaving the state unchanged and attaches
nothing. -/
theorem calculate_indicators_none_noop (data : Option Frame) (h : data = none) :
    calculate_indicators data = data := by
  subst h
  rfl

/-- Witness for C10 at the concrete absent state. -/
theorem calculate_indicators_none_noop_witness :
    calculate_indicators none = none :=
  calculate_indicators_none_noop none rfl

end Quant
